import Mathlib

/-!
Shallow embedding of the local-DNS record management layer of the
pihole6api client library (src/pihole6api/local_dns.py and
src/pihole6api/config.py), together with proofs settling the frozen
claims about it.

The transport collaborator (PiHole6Connection) is modelled by its
observable behaviour: a GET of the "config" resource either raises
(modelled as Except.error with the exception message) or returns a
parsed JSON payload (modelled as Except.ok of a ConfigResponse).
Mutations are modelled as the TransportCall value the code would issue.
-/

/-! ## Python string primitives

These are defined by structural recursion over the character list of
the string (rather than through String.split and friends, whose
well-founded recursion does not reduce definitionally), with exactly
the Python semantics. -/

/-- Split a character list at every separator character, keeping empty
tokens; the empty input yields one empty token, as in Python. -/
def splitCharsAux (p : Char → Bool) : List Char → List Char → List (List Char)
  | [], acc => [acc.reverse]
  | c :: cs, acc =>
    if p c then acc.reverse :: splitCharsAux p cs []
    else splitCharsAux p cs (c :: acc)

/-- Split a string at every character satisfying p, keeping empty
tokens (semantics of Python str.split(sep) for a one-character sep). -/
def splitOnPred (p : Char → Bool) (s : String) : List String :=
  (splitCharsAux p s.data []).map String.mk

/-- Python str.split() with no argument: split on runs of whitespace,
dropping empty tokens. -/
def pySplitWs (s : String) : List String :=
  (splitOnPred Char.isWhitespace s).filter (fun t => t != "")

/-- Python str.split(","). -/
def pySplitComma (s : String) : List String :=
  splitOnPred (fun c => c == ',') s

/-- Python str.lower() (ASCII case mapping, all the code needs). -/
def pyLower (s : String) : String := String.mk (s.data.map Char.toLower)

/-- Python str.upper() (ASCII case mapping, all the code needs). -/
def pyUpper (s : String) : String := String.mk (s.data.map Char.toUpper)

/-- Python str.strip() with no argument: drop leading and trailing
whitespace. -/
def pyStrip (s : String) : String :=
  String.mk
    (((s.data.dropWhile Char.isWhitespace).reverse.dropWhile
        Char.isWhitespace).reverse)

/-! ## Python dict and set primitives

Python dicts are insertion-ordered; assigning to an existing key keeps
its position and replaces the value.  They are modelled as association
lists with that exact update semantics. -/

def dictInsert (d : List (String × String)) (k v : String) :
    List (String × String) :=
  if d.any (fun p => p.1 == k) then
    d.map (fun p => if p.1 == k then (k, v) else p)
  else
    d ++ [(k, v)]

/-- Python set.add on a set modelled as a duplicate-free list (insertion
order retained; only the cardinality is consumed by the code). -/
def setAdd (s : List String) (x : String) : List String :=
  if x ∈ s then s else s ++ [x]

/-! ## urllib.parse.quote

urllib.parse.quote(string) with the default safe set "/": each UTF-8
byte of the input is kept verbatim when it is an unreserved byte
(ASCII letter, digit, or one of "_.-~") or the safe byte "/", and is
otherwise written as "%XX" with uppercase hexadecimal digits. -/

/-- Unreserved characters of urllib.parse.quote (its always-safe set). -/
def isQuoteUnreserved (c : Char) : Bool :=
  decide (65 ≤ c.toNat ∧ c.toNat ≤ 90) ||
  decide (97 ≤ c.toNat ∧ c.toNat ≤ 122) ||
  decide (48 ≤ c.toNat ∧ c.toNat ≤ 57) ||
  (c == '_') || (c == '.') || (c == '-') || (c == '~')

def hexUpperDigits : List Char :=
  ['0', '1', '2', '3', '4', '5', '6', '7', '8', '9',
   'A', 'B', 'C', 'D', 'E', 'F']

def hexDigitUpper (n : Nat) : Char := hexUpperDigits.getD n '0'

/-- UTF-8 encoding of one Unicode scalar value, as byte values. -/
def utf8Bytes (c : Char) : List Nat :=
  let n := c.toNat
  if n < 128 then [n]
  else if n < 2048 then [192 + n / 64, 128 + n % 64]
  else if n < 65536 then [224 + n / 4096, 128 + n / 64 % 64, 128 + n % 64]
  else [240 + n / 262144, 128 + n / 4096 % 64, 128 + n / 64 % 64, 128 + n % 64]

/-- quote of a single character: kept when unreserved or the safe
character "/", percent-escaped bytewise otherwise. -/
def quoteChar (c : Char) : List Char :=
  if isQuoteUnreserved c || (c == '/') then [c]
  else ((utf8Bytes c).map
    (fun b => ['%', hexDigitUpper (b / 16), hexDigitUpper (b % 16)])).flatten

/-- urllib.parse.quote with the default safe set "/". -/
def urlQuote (s : String) : String :=
  String.mk ((s.data.map quoteChar).flatten)

/-! ## Transport payloads

The code reads config_response.get("config", {}).get("dns", {}) and
then .get("hosts", []) / .get("cnameRecords", []); each Option models
the presence of the corresponding JSON key. -/

structure DnsSection where
  hosts : Option (List String)
  cnameRecords : Option (List String)
deriving DecidableEq

structure ConfigData where
  dns : Option DnsSection
deriving DecidableEq

structure ConfigResponse where
  config : Option ConfigData
deriving DecidableEq

/-- hosts list seen by the decoders, with the three .get defaults. -/
def hostsOf (r : ConfigResponse) : List String :=
  (((r.config.getD ⟨none⟩).dns.getD ⟨none, none⟩).hosts).getD []

/-- cnameRecords list seen by the decoders, with the .get defaults. -/
def cnamesOf (r : ConfigResponse) : List String :=
  (((r.config.getD ⟨none⟩).dns.getD ⟨none, none⟩).cnameRecords).getD []

/-- Result of the transport's get("config"): ok payload or raised
exception message. -/
abbrev TransportGet := Except String ConfigResponse

/-- A mutation issued to the transport, identified by verb and path. -/
inductive TransportCall where
  | put (path : String)
  | delete (path : String)
deriving DecidableEq

/-! ## PiHole6LocalDNS.get_all_records (keyed-mapping variant) -/

/-- The filter `record_type is None or record_type.upper() == kind`. -/
def matchesKind (record_type : Option String) (kind : String) : Bool :=
  match record_type with
  | none => true
  | some s => pyUpper s == kind

/-- One iteration of the hosts loop of get_all_records: split the entry
on whitespace; when it has at least 2 tokens, map every hostname token
after the first to the first (IP) token in the keyed dict. -/
def processHostEntry (m : List (String × String)) (entry : String) :
    List (String × String) :=
  match pySplitWs entry with
  | ip :: h :: hs => (h :: hs).foldl (fun acc hn => dictInsert acc hn ip) m
  | _ => m

/-- One iteration of the cnameRecords loop of get_all_records: split on
comma; when at least 2 tokens, map the first token to the second. -/
def processCnameEntry (m : List (String × String)) (entry : String) :
    List (String × String) :=
  match pySplitComma entry with
  | source :: target :: _ => dictInsert m source target
  | _ => m

/-- PiHole6LocalDNS.get_all_records.  The whole body is inside
try/except Exception: on any exception (in particular a transport
failure) it prints and returns the dict of two empty dicts, so the
function never raises; hence the result type is Except but the error
constructor is never produced. -/
def get_all_records (resp : TransportGet) (record_type : Option String) :
    Except String (List (String × List (String × String))) :=
  match resp with
  | .error _ => .ok [("A", []), ("CNAME", [])]
  | .ok r =>
    let aMap := if matchesKind record_type "A"
      then (hostsOf r).foldl processHostEntry [] else []
    let cMap := if matchesKind record_type "CNAME"
      then (cnamesOf r).foldl processCnameEntry [] else []
    .ok [("A", aMap), ("CNAME", cMap)]

/-- Unwrap the Except at a call site like
`all_records = self.get_all_records()` (an exception would propagate;
get_all_records never produces one, so the default is never taken). -/
def unwrapRecords (e : Except String (List (String × List (String × String)))) :
    List (String × List (String × String)) :=
  match e with
  | .ok v => v
  | .error _ => []

/-- PiHole6LocalDNS.get_a_records: all_records["A"] (the key is always
present; the getD default is never taken). -/
def get_a_records (resp : TransportGet) : List (String × String) :=
  ((unwrapRecords (get_all_records resp none)).lookup "A").getD []

/-- PiHole6LocalDNS.get_cname_records: all_records["CNAME"]. -/
def get_cname_records (resp : TransportGet) : List (String × String) :=
  ((unwrapRecords (get_all_records resp none)).lookup "CNAME").getD []

/-! ## Mutation path construction -/

/-- The raw-then-quoted segment of an A-record mutation:
urllib.parse.quote(f"\x7bip\x7d \x7bhostname\x7d"). -/
def a_record_segment (hostname ip : String) : String :=
  urlQuote (ip ++ " " ++ hostname)

/-- The raw-then-quoted segment of a CNAME-record mutation:
urllib.parse.quote(f"\x7balias\x7d,\x7btarget\x7d,\x7bttl\x7d"). -/
def cname_segment (aliasName target : String) (ttl : Int) : String :=
  urlQuote (aliasName ++ "," ++ target ++ "," ++ toString ttl)

/-- PiHole6LocalDNS.add_a_record: one PUT of the encoded segment. -/
def add_a_record (hostname ip : String) : TransportCall :=
  .put ("config/dns/hosts/" ++ a_record_segment hostname ip)

/-- PiHole6Configuration.add_local_a_record (same body). -/
def add_local_a_record (host ip : String) : TransportCall :=
  .put ("config/dns/hosts/" ++ a_record_segment host ip)

/-- PiHole6LocalDNS.add_cname_record: one PUT of the encoded segment. -/
def add_cname_record (aliasName target : String) (ttl : Int) : TransportCall :=
  .put ("config/dns/cnameRecords/" ++ cname_segment aliasName target ttl)

/-- PiHole6LocalDNS.remove_a_record.  With ip=None it fetches the
current A map (resp models that GET); a missing hostname raises
ValueError, otherwise the looked-up ip builds the DELETE path. -/
def remove_a_record (resp : TransportGet) (hostname : String)
    (ip : Option String) : Except String TransportCall :=
  match ip with
  | some ipv =>
    .ok (.delete ("config/dns/hosts/" ++ a_record_segment hostname ipv))
  | none =>
    match (get_a_records resp).lookup hostname with
    | none => .error ("Hostname " ++ hostname ++ " not found in A records")
    | some ipv =>
      .ok (.delete ("config/dns/hosts/" ++ a_record_segment hostname ipv))

/-- PiHole6LocalDNS.remove_cname_record.  With target=None it fetches
the current CNAME map; a missing alias raises ValueError, otherwise the
looked-up target and the ttl ARGUMENT build the DELETE path. -/
def remove_cname_record (resp : TransportGet) (aliasName : String)
    (target : Option String) (ttl : Int) : Except String TransportCall :=
  match target with
  | some tv =>
    .ok (.delete ("config/dns/cnameRecords/" ++ cname_segment aliasName tv ttl))
  | none =>
    match (get_cname_records resp).lookup aliasName with
    | none => .error ("CNAME alias " ++ aliasName ++ " not found")
    | some tv =>
      .ok (.delete ("config/dns/cnameRecords/" ++ cname_segment aliasName tv ttl))

/-- The delete calls a remove operation issues: none when it raised. -/
def issuedCalls (e : Except String TransportCall) : List TransportCall :=
  match e with
  | .error _ => []
  | .ok c => [c]

/-! ## PiHole6Configuration.get_local_dns_records (record-list variant) -/

/-- One decoded record dict of the list-based variant: the A form
carries domain/ip/raw_entry, the CNAME form domain/target/ttl/raw_entry
(with the "type" key made a constructor tag). -/
inductive DnsRecord where
  | arec (domain ip raw_entry : String)
  | cnamerec (domain target ttl raw_entry : String)
deriving DecidableEq

def DnsRecord.isA : DnsRecord → Bool
  | .arec _ _ _ => true
  | .cnamerec _ _ _ _ => false

def DnsRecord.isCname : DnsRecord → Bool
  | .arec _ _ _ => false
  | .cnamerec _ _ _ _ => true

def DnsRecord.domain : DnsRecord → String
  | .arec d _ _ => d
  | .cnamerec d _ _ _ => d

/-- record.get("ip", ...); only A records carry an ip. -/
def DnsRecord.ipD : DnsRecord → String
  | .arec _ ip _ => ip
  | .cnamerec _ _ _ _ => ""

/-- Decode of one hosts entry into record dicts: split on whitespace;
with at least two tokens, one record per hostname token after the
first, all carrying the first (IP) token and the raw entry. -/
def decodeHostEntry (entry : String) : List DnsRecord :=
  match pySplitWs entry with
  | ip :: h :: hs => (h :: hs).map (fun hn => .arec hn ip entry)
  | _ => []

/-- Decode of one cnameRecords entry: split on comma; with at least two
tokens the first is the domain, the second the target, and the third,
when present, the ttl (else the string "default"). -/
def decodeCnameEntry (entry : String) : List DnsRecord :=
  match pySplitComma entry with
  | source :: target :: rest =>
    [.cnamerec source target (rest.headD "default") entry]
  | _ => []

/-- PiHole6Configuration.get_local_dns_records: decodes both sections
(subject to the record_type filter) into one list, A records first.
Unlike get_all_records, its except clause re-raises a wrapped
Exception, so a transport failure surfaces as an error. -/
def get_local_dns_records (resp : TransportGet)
    (record_type : Option String) : Except String (List DnsRecord) :=
  match resp with
  | .error e => .error ("Error retrieving local DNS records: " ++ e)
  | .ok r =>
    let aRecs := if matchesKind record_type "A"
      then ((hostsOf r).map decodeHostEntry).flatten else []
    let cRecs := if matchesKind record_type "CNAME"
      then ((cnamesOf r).map decodeCnameEntry).flatten else []
    .ok (aRecs ++ cRecs)

/-! ## Statistics -/

/-- Return dict of PiHole6LocalDNS.get_statistics. -/
structure LocalDnsStats where
  aCount : Nat
  cnameCount : Nat
  unique_ips : Nat
  domains_per_ip : List (String × List String)
deriving DecidableEq

/-- domains_per_ip accumulation: append the domain to the list stored
under ip, creating the key at the end on first sight. -/
def groupAdd (m : List (String × List String)) (ip domain : String) :
    List (String × List String) :=
  if m.any (fun p => p.1 == ip) then
    m.map (fun p => if p.1 == ip then (p.1, p.2 ++ [domain]) else p)
  else
    m ++ [(ip, [domain])]

/-- PiHole6LocalDNS.get_statistics: counts are taken over the KEYED
maps returned by get_all_records; unique_ips is the cardinality of the
set of values of the A map. -/
def get_statistics (resp : TransportGet) : LocalDnsStats :=
  let allRecords := unwrapRecords (get_all_records resp none)
  let aRecords := (allRecords.lookup "A").getD []
  let cnameRecords := (allRecords.lookup "CNAME").getD []
  { aCount := aRecords.length
    cnameCount := cnameRecords.length
    unique_ips := ((aRecords.map Prod.snd).foldl setAdd []).length
    domains_per_ip := aRecords.foldl (fun m p => groupAdd m p.2 p.1) [] }

/-- Return dict of PiHole6Configuration.get_dns_statistics (the
records_by_type sub-dict repeats a_records/cname_records). -/
structure ConfigDnsStats where
  total_records : Nat
  a_records : Nat
  cname_records : Nat
  unique_domains : Nat
  unique_ips : Nat
deriving DecidableEq

/-- PiHole6Configuration.get_dns_statistics: filters the record list by
type and folds the domain/ip sets exactly as the two source loops do
(A records feed both sets, CNAME records only the domain set). -/
def get_dns_statistics (resp : TransportGet) :
    Except String ConfigDnsStats :=
  match get_local_dns_records resp none with
  | .error e => .error e
  | .ok allRecords =>
    let aR := allRecords.filter DnsRecord.isA
    let cR := allRecords.filter DnsRecord.isCname
    let ud0 := aR.foldl (fun s r => setAdd s r.domain) []
    let ui := aR.foldl (fun s r => setAdd s r.ipD) []
    let ud := cR.foldl (fun s r => setAdd s r.domain) ud0
    .ok { total_records := allRecords.length
          a_records := aR.length
          cname_records := cR.length
          unique_domains := ud.length
          unique_ips := ui.length }

/-! ## PiHole6LocalDNS.export_records -/

/-- What export_records writes: a JSON dump of the keyed record dict,
or CSV rows. The file system write itself is outside the model. -/
inductive ExportOutput where
  | jsonOut (records : List (String × List (String × String)))
  | csvOut (rows : List (List String))
deriving DecidableEq

/-- The CSV rows export_records writes: fixed header, then one row per
A record with blank TTL, then one row per CNAME record with TTL 300. -/
def csvRows (allRecords : List (String × List (String × String))) :
    List (List String) :=
  [["Domain", "Type", "Target", "TTL"]]
    ++ ((allRecords.lookup "A").getD []).map (fun p => [p.1, "A", p.2, ""])
    ++ ((allRecords.lookup "CNAME").getD []).map
        (fun p => [p.1, "CNAME", p.2, "300"])

/-- PiHole6LocalDNS.export_records: format.lower() selects json or csv;
any other name raises ValueError naming the bad value (after the fetch,
before any write). -/
def export_records (resp : TransportGet) (format : String) :
    Except String ExportOutput :=
  let allRecords := unwrapRecords (get_all_records resp none)
  if pyLower format == "json" then .ok (.jsonOut allRecords)
  else if pyLower format == "csv" then .ok (.csvOut (csvRows allRecords))
  else .error ("Unsupported format: " ++ format)

/-! ## ipaddress.ip_address validity

PiHole6LocalDNS.add_a_record_with_validation validates the ip argument
with the standard library's ipaddress.ip_address(ip), which accepts a
string exactly when it parses as an IPv4Address or an IPv6Address.  The
acceptance condition is embedded below following CPython's
_ip_int_from_string parsers (ipaddress is the standard library, not
repository code; only acceptance, not the parsed value, is consumed). -/

def isDecDigit (c : Char) : Bool := decide (48 ≤ c.toNat ∧ c.toNat ≤ 57)

def decValue (s : String) : Nat :=
  s.data.foldl (fun n c => n * 10 + (c.toNat - 48)) 0

/-- CPython IPv4Address._parse_octet: 1 to 3 ASCII digits, no leading
zero, value at most 255. -/
def validOctet (s : String) : Bool :=
  decide (1 ≤ s.data.length) && decide (s.data.length ≤ 3) &&
  s.data.all isDecDigit &&
  (decide (s.data.length = 1) || (s.data.headD '0' != '0')) &&
  decide (decValue s ≤ 255)

/-- CPython IPv4Address string acceptance: exactly 4 valid octets. -/
def isValidIpv4 (s : String) : Bool :=
  match splitOnPred (fun c => c == '.') s with
  | [a, b, c, d] => validOctet a && validOctet b && validOctet c && validOctet d
  | _ => false

def isAsciiHexDigit (c : Char) : Bool :=
  decide (48 ≤ c.toNat ∧ c.toNat ≤ 57) ||
  decide (97 ≤ c.toNat ∧ c.toNat ≤ 102) ||
  decide (65 ≤ c.toNat ∧ c.toNat ≤ 70)

/-- CPython IPv6Address._parse_hextet: 1 to 4 hex digits. -/
def validHextet (s : String) : Bool :=
  decide (1 ≤ s.data.length) && decide (s.data.length ≤ 4) &&
  s.data.all isAsciiHexDigit

/-- CPython IPv6Address._ip_int_from_string acceptance on the
colon-separated parts (after embedded-IPv4 replacement): at most one
inner empty part standing for "::", leading/trailing empty parts only
beside it, the remaining parts valid hextets, and the counts fitting
into 8 hextets. -/
def validIpv6Parts (parts : List String) : Bool :=
  if parts.length < 3 then false
  else if parts.length > 9 then false
  else
    let inner := (parts.drop 1).dropLast
    let emptyCount := (inner.filter (fun p => p == "")).length
    if 2 ≤ emptyCount then false
    else if emptyCount = 1 then
      let skip := 1 + inner.findIdx (fun p => p == "")
      let firstEmpty := parts.headD "x" == ""
      let lastEmpty := parts.getLastD "x" == ""
      let hi0 := skip
      let lo0 := parts.length - skip - 1
      if firstEmpty && decide (hi0 - 1 ≠ 0) then false
      else if lastEmpty && decide (lo0 - 1 ≠ 0) then false
      else
        let hi := if firstEmpty then hi0 - 1 else hi0
        let lo := if lastEmpty then lo0 - 1 else lo0
        if decide (7 < hi + lo) then false
        else (parts.take hi).all validHextet &&
             (parts.drop (parts.length - lo)).all validHextet
    else
      decide (parts.length = 8) && (parts.headD "" != "") &&
      (parts.getLastD "" != "") && parts.all validHextet

/-- IPv6 acceptance of the address part (before any scope id): split on
colon; a dotted last part must be a valid IPv4 address and stands for
two hextets. -/
def isValidIpv6Addr (s : String) : Bool :=
  let parts0 := splitOnPred (fun c => c == ':') s
  if parts0.length < 3 then false
  else if (parts0.getLastD "").data.any (fun c => c == '.') then
    isValidIpv4 (parts0.getLastD "") &&
    validIpv6Parts (parts0.dropLast ++ ["0", "0"])
  else
    validIpv6Parts parts0

/-- CPython IPv6Address._split_scope_id: an optional "%scope" suffix;
the scope must be non-empty and contain no further percent sign. -/
def isValidIpv6 (s : String) : Bool :=
  match splitOnPred (fun c => c == '%') s with
  | [addr] => isValidIpv6Addr addr
  | [addr, scope] => (scope != "") && isValidIpv6Addr addr
  | _ => false

/-- ipaddress.ip_address(s) succeeds iff s is IPv4 or IPv6. -/
def isValidIpAddress (s : String) : Bool :=
  isValidIpv4 s || isValidIpv6 s

/-- PiHole6LocalDNS.add_a_record_with_validation: ValueError on an
invalid ip literal, then ValueError on an empty/blank hostname, and
only then the single PUT of add_a_record. -/
def add_a_record_with_validation (hostname ip : String) :
    Except String TransportCall :=
  if !(isValidIpAddress ip) then
    .error ("Invalid IP address: " ++ ip)
  else if (hostname == "") || (pyStrip hostname == "") then
    .error "Hostname cannot be empty"
  else
    .ok (add_a_record hostname ip)

/-! ## Helper lemmas on the quote encoder -/

theorem getD_unreserved :
    ∀ (l : List Char) (d : Char), (∀ c ∈ l, isQuoteUnreserved c = true) →
      isQuoteUnreserved d = true →
      ∀ m : Nat, isQuoteUnreserved (l.getD m d) = true := by
  intro l
  induction l with
  | nil =>
    intro d _ hd m
    simpa [List.getD] using hd
  | cons a t ih =>
    intro d hl hd m
    cases m with
    | zero => simpa [List.getD] using hl a (by simp)
    | succ k =>
      simpa [List.getD] using ih d (fun c hc => hl c (by simp [hc])) hd k

theorem hexDigitUpper_unreserved (n : Nat) :
    isQuoteUnreserved (hexDigitUpper n) = true :=
  getD_unreserved hexUpperDigits '0' (by decide) (by decide) n

theorem quoteChar_mem (c x : Char) (hx : x ∈ quoteChar c) :
    isQuoteUnreserved x = true ∨ x = '/' ∨ x = '%' := by
  unfold quoteChar at hx
  by_cases h : (isQuoteUnreserved c || (c == '/')) = true
  · rw [if_pos h] at hx
    rcases List.mem_singleton.mp hx with rfl
    have h' : isQuoteUnreserved x = true ∨ (x == '/') = true := by
      simpa using h
    rcases h' with h1 | h2
    · exact Or.inl h1
    · exact Or.inr (Or.inl (by simpa using h2))
  · rw [if_neg h] at hx
    rcases List.mem_flatten.mp hx with ⟨l, hl, hxl⟩
    rcases List.mem_map.mp hl with ⟨b, _, rfl⟩
    have h' : x = '%' ∨ x = hexDigitUpper (b / 16) ∨ x = hexDigitUpper (b % 16) := by
      simpa using hxl
    rcases h' with rfl | rfl | rfl
    · exact Or.inr (Or.inr rfl)
    · exact Or.inl (hexDigitUpper_unreserved (b / 16))
    · exact Or.inl (hexDigitUpper_unreserved (b % 16))

theorem urlQuote_mem (s : String) (x : Char) (hx : x ∈ (urlQuote s).data) :
    isQuoteUnreserved x = true ∨ x = '/' ∨ x = '%' := by
  have hx' : x ∈ (s.data.map quoteChar).flatten := hx
  rcases List.mem_flatten.mp hx' with ⟨l, hl, hxl⟩
  rcases List.mem_map.mp hl with ⟨c, _, rfl⟩
  exact quoteChar_mem c x hxl

theorem urlQuote_no_space (s : String) : ' ' ∉ (urlQuote s).data := by
  intro hmem
  rcases urlQuote_mem s ' ' hmem with h | h | h
  · cases h
  · cases h
  · cases h

/-! ## Helper lemmas on the set model -/

theorem mem_setAdd (s : List String) (a x : String) :
    x ∈ setAdd s a ↔ x ∈ s ∨ x = a := by
  unfold setAdd
  by_cases h : a ∈ s
  · rw [if_pos h]
    exact ⟨Or.inl, fun h' => h'.elim id (fun e => e ▸ h)⟩
  · rw [if_neg h]
    simp

theorem nodup_setAdd (s : List String) (a : String) (h : s.Nodup) :
    (setAdd s a).Nodup := by
  unfold setAdd
  by_cases ha : a ∈ s
  · rw [if_pos ha]; exact h
  · rw [if_neg ha]
    simp [List.nodup_append, h, ha]

theorem mem_foldl_setAdd (l : List String) :
    ∀ (s : List String) (x : String),
      x ∈ l.foldl setAdd s ↔ x ∈ s ∨ x ∈ l := by
  induction l with
  | nil => intro s x; simp
  | cons a t ih =>
    intro s x
    rw [List.foldl_cons, ih, mem_setAdd]
    constructor
    · rintro ((hs | rfl) | ht)
      · exact Or.inl hs
      · exact Or.inr (by simp)
      · exact Or.inr (by simp [ht])
    · rintro (hs | hat)
      · exact Or.inl (Or.inl hs)
      · rcases List.mem_cons.mp hat with rfl | ht
        · exact Or.inl (Or.inr rfl)
        · exact Or.inr ht

theorem nodup_foldl_setAdd (l : List String) :
    ∀ s : List String, s.Nodup → (l.foldl setAdd s).Nodup := by
  induction l with
  | nil => intro s h; simpa using h
  | cons a t ih =>
    intro s h
    rw [List.foldl_cons]
    exact ih _ (nodup_setAdd s a h)

/-- The cardinality of the set built by folding set.add equals the
number of distinct elements of the list. -/
theorem length_foldl_setAdd (l : List String) :
    (l.foldl setAdd []).length = l.dedup.length := by
  have hnd : (l.foldl setAdd []).Nodup := nodup_foldl_setAdd l [] List.nodup_nil
  have hmem : ∀ x, x ∈ l.foldl setAdd [] ↔ x ∈ l.dedup := by
    intro x
    rw [mem_foldl_setAdd, List.mem_dedup]
    simp
  exact ((List.perm_ext_iff_of_nodup hnd (List.nodup_dedup l)).mpr hmem).length_eq

/-! ## Claim C1 -/

/-- C1: on a transport failure, PiHole6Configuration.get_local_dns_records
raises a wrapped error, but PiHole6LocalDNS.get_all_records swallows the
exception and returns the empty record dict normally — contradicting the
claim (and the repository's own test test_api_error_handling, which
asserts that get_all_records raises with the transport message).  The
first conjunct evaluates the code at that failing input; the remaining
conjuncts establish the parts of the claim the code does satisfy: the
wrapped error of the list variant, and empty collections (not an error)
when the payload lacks the config or dns sections or their sub-keys. -/
theorem c1_transport_failure_swallowed :
    get_all_records (.error "API connection failed") none
      = .ok [("A", []), ("CNAME", [])] ∧
    (∀ msg record_type, get_all_records (.error msg) record_type
      = .ok [("A", []), ("CNAME", [])]) ∧
    (∀ msg record_type, get_local_dns_records (.error msg) record_type
      = .error ("Error retrieving local DNS records: " ++ msg)) ∧
    (∀ record_type,
      get_all_records (.ok ⟨none⟩) record_type
        = .ok [("A", []), ("CNAME", [])] ∧
      get_all_records (.ok ⟨some ⟨none⟩⟩) record_type
        = .ok [("A", []), ("CNAME", [])] ∧
      get_all_records (.ok ⟨some ⟨some ⟨none, none⟩⟩⟩) record_type
        = .ok [("A", []), ("CNAME", [])] ∧
      get_local_dns_records (.ok ⟨none⟩) record_type = .ok [] ∧
      get_local_dns_records (.ok ⟨some ⟨none⟩⟩) record_type = .ok [] ∧
      get_local_dns_records (.ok ⟨some ⟨some ⟨none, none⟩⟩⟩) record_type
        = .ok []) := by
  refine ⟨rfl, fun msg record_type => rfl, fun msg record_type => rfl, ?_⟩
  intro record_type
  refine ⟨?_, ?_, ?_, ?_, ?_, ?_⟩ <;>
    simp [get_all_records, get_local_dns_records, hostsOf, cnamesOf]

/-! ## Claim C2 -/

/-- C2 counterexample: the claim says every reserved character of the
raw string, including the slash, appears escaped, so the segment
contains no unescaped slash.  At hostname "a/b", ip "10.0.0.1" the
encoded A-record segment keeps the slash verbatim (quote's default safe
set is "/"), so the claim is false. -/
theorem c2_counterexample :
    a_record_segment "a/b" "10.0.0.1" = "10.0.0.1%20a/b" ∧
    '/' ∈ (a_record_segment "a/b" "10.0.0.1").data := by
  constructor
  · rfl
  · decide

/-- C2 amended: the mutation path segments are percent-encoded with
urllib.parse.quote's default safe set: every character outside the
unreserved set is escaped EXCEPT the slash, which is kept verbatim.  In
particular every character of a segment is unreserved, a slash, or a
percent sign, and no segment ever contains a space. -/
theorem c2_segment_encoding (hostname ip aliasName target : String)
    (ttl : Int) :
    (∀ x ∈ (a_record_segment hostname ip).data,
      isQuoteUnreserved x = true ∨ x = '/' ∨ x = '%') ∧
    ' ' ∉ (a_record_segment hostname ip).data ∧
    (∀ x ∈ (cname_segment aliasName target ttl).data,
      isQuoteUnreserved x = true ∨ x = '/' ∨ x = '%') ∧
    ' ' ∉ (cname_segment aliasName target ttl).data :=
  ⟨fun x hx => urlQuote_mem _ x hx,
   urlQuote_no_space _,
   fun x hx => urlQuote_mem _ x hx,
   urlQuote_no_space _⟩

/-- C2 witness: the amended theorem applied at concrete inputs. -/
theorem c2_segment_encoding_witness :
    isQuoteUnreserved '2' = true ∨ '2' = '/' ∨ '2' = '%' :=
  (c2_segment_encoding "host.local" "10.0.0.1" "a" "b" 300).1 '2' (by decide)

/-! ## Claim C3 -/

/-- C3: decoding an address line splits it on whitespace; with N
hostname tokens after the first (IP) token it yields exactly N address
records, each carrying the first token as its ip; with fewer than 2
tokens it yields zero records.  decodeHostEntry is the per-line decode
of get_local_dns_records, whose A-section output is exactly the
concatenation of the per-line decodes (third conjunct). -/
theorem c3_address_line_decode (entry : String) :
    ((pySplitWs entry).length < 2 → decodeHostEntry entry = []) ∧
    (∀ ip hs, pySplitWs entry = ip :: hs → hs ≠ [] →
      (decodeHostEntry entry).length = hs.length ∧
      ∀ r ∈ decodeHostEntry entry, DnsRecord.ipD r = ip) ∧
    (∀ r : ConfigResponse,
      get_local_dns_records (.ok r) none
        = .ok (((hostsOf r).map decodeHostEntry).flatten
            ++ ((cnamesOf r).map decodeCnameEntry).flatten)) := by
  refine ⟨?_, ?_, fun r => rfl⟩
  · intro hlt
    unfold decodeHostEntry
    cases h : pySplitWs entry with
    | nil => rfl
    | cons a t =>
      cases t with
      | nil => rfl
      | cons b t2 =>
        rw [h] at hlt
        simp at hlt
        omega
  · intro ip hs hsplit hne
    unfold decodeHostEntry
    rw [hsplit]
    cases hs with
    | nil => exact absurd rfl hne
    | cons b t2 =>
      constructor
      · simp
      · intro r hr
        rcases List.mem_map.mp hr with ⟨hn, _, rfl⟩
        rfl

/-- C3 witness: the line "1.2.3.4 a b" has 2 hostname tokens and
decodes to 2 records both carrying ip "1.2.3.4". -/
theorem c3_address_line_decode_witness :
    (decodeHostEntry "1.2.3.4 a b").length = (["a", "b"] : List String).length ∧
    ∀ r ∈ decodeHostEntry "1.2.3.4 a b", DnsRecord.ipD r = "1.2.3.4" :=
  (c3_address_line_decode "1.2.3.4 a b").2.1 "1.2.3.4" ["a", "b"]
    (by decide) (by decide)

/-! ## Claim C4 -/

/-- Payload holding the single address record ("host.local","10.0.0.1"). -/
def respC4 : TransportGet :=
  .ok ⟨some ⟨some ⟨some ["10.0.0.1 host.local"], some []⟩⟩⟩

/-- C4 counterexample: the claim says export_records with format "zone"
on the single address record ("host.local","10.0.0.1") writes a zone
line.  The code supports only "json" and "csv": with format "zone" it
raises ValueError naming the bad value and writes nothing. -/
theorem c4_counterexample :
    export_records respC4 "zone" = .error "Unsupported format: zone" := by
  rfl

/-- C4 amended: export_records supports exactly the formats "json" and
"csv" (matched case-insensitively); "zone" is not among them, and every
unsupported format name — "zone" included — raises a validation error
identifying the bad value before anything is written. -/
theorem c4_unsupported_format (resp : TransportGet) (format : String)
    (hjson : pyLower format ≠ "json") (hcsv : pyLower format ≠ "csv") :
    export_records resp format = .error ("Unsupported format: " ++ format) := by
  unfold export_records
  rw [if_neg (by simpa using hjson), if_neg (by simpa using hcsv)]

/-- C4 witness: the amended theorem applied at format "zone". -/
theorem c4_unsupported_format_witness :
    export_records respC4 "zone" = .error ("Unsupported format: " ++ "zone") :=
  c4_unsupported_format respC4 "zone" (by decide) (by decide)

/-! ## Claim C5 -/

/-- C5: add_a_record_with_validation validates before any network call.
An ip rejected by ipaddress.ip_address raises the naming ValueError and
issues zero transport calls; with a valid ip an empty or blank hostname
raises and issues zero calls; with valid inputs exactly the one PUT of
add_a_record is issued. -/
theorem c5_add_with_validation (hostname ip : String) :
    (isValidIpAddress ip = false →
      add_a_record_with_validation hostname ip
        = .error ("Invalid IP address: " ++ ip) ∧
      issuedCalls (add_a_record_with_validation hostname ip) = []) ∧
    (isValidIpAddress ip = true → (hostname = "" ∨ pyStrip hostname = "") →
      add_a_record_with_validation hostname ip
        = .error "Hostname cannot be empty" ∧
      issuedCalls (add_a_record_with_validation hostname ip) = []) ∧
    (isValidIpAddress ip = true → hostname ≠ "" → pyStrip hostname ≠ "" →
      add_a_record_with_validation hostname ip
        = .ok (add_a_record hostname ip) ∧
      issuedCalls (add_a_record_with_validation hostname ip)
        = [add_a_record hostname ip]) := by
  refine ⟨?_, ?_, ?_⟩
  · intro hbad
    have h : add_a_record_with_validation hostname ip
        = .error ("Invalid IP address: " ++ ip) := by
      unfold add_a_record_with_validation
      rw [if_pos (by simp [hbad])]
    exact ⟨h, by rw [h]; rfl⟩
  · intro hok hblank
    have h : add_a_record_with_validation hostname ip
        = .error "Hostname cannot be empty" := by
      unfold add_a_record_with_validation
      rw [if_neg (by simp [hok]), if_pos ?_]
      rcases hblank with h1 | h1 <;> simp [h1]
    exact ⟨h, by rw [h]; rfl⟩
  · intro hok hne hns
    have h : add_a_record_with_validation hostname ip
        = .ok (add_a_record hostname ip) := by
      unfold add_a_record_with_validation
      rw [if_neg (by simp [hok]), if_neg (by simp [hne, hns])]
    exact ⟨h, by rw [h]; rfl⟩

/-- C5 witness: "256.1.1.1" is rejected with no transport call, and
("test.local", "192.168.1.1") passes validation and issues exactly one
PUT. -/
theorem c5_add_with_validation_witness :
    (add_a_record_with_validation "test.local" "256.1.1.1"
        = .error ("Invalid IP address: " ++ "256.1.1.1") ∧
      issuedCalls (add_a_record_with_validation "test.local" "256.1.1.1")
        = []) ∧
    (add_a_record_with_validation "test.local" "192.168.1.1"
        = .ok (add_a_record "test.local" "192.168.1.1") ∧
      issuedCalls (add_a_record_with_validation "test.local" "192.168.1.1")
        = [add_a_record "test.local" "192.168.1.1"]) :=
  ⟨(c5_add_with_validation "test.local" "256.1.1.1").1 (by decide),
   (c5_add_with_validation "test.local" "192.168.1.1").2.2
     (by decide) (by decide) (by decide)⟩

/-! ## Claim C6 -/

/-- C6: the remove operations with the resolution argument omitted look
the name up in the freshly decoded record map; a missing name raises
the not-found ValueError (a distinct local condition, not a transport
error) and issues no delete call, while a present name resolves to the
stored value, which builds the deletion path. -/
theorem c6_remove_auto_resolution (resp : TransportGet)
    (hostname aliasName : String) (ttl : Int) :
    ((get_a_records resp).lookup hostname = none →
      remove_a_record resp hostname none
        = .error ("Hostname " ++ hostname ++ " not found in A records") ∧
      issuedCalls (remove_a_record resp hostname none) = []) ∧
    (∀ ipv, (get_a_records resp).lookup hostname = some ipv →
      remove_a_record resp hostname none
        = .ok (.delete ("config/dns/hosts/" ++ a_record_segment hostname ipv))) ∧
    ((get_cname_records resp).lookup aliasName = none →
      remove_cname_record resp aliasName none ttl
        = .error ("CNAME alias " ++ aliasName ++ " not found") ∧
      issuedCalls (remove_cname_record resp aliasName none ttl) = []) ∧
    (∀ tv, (get_cname_records resp).lookup aliasName = some tv →
      remove_cname_record resp aliasName none ttl
        = .ok (.delete
            ("config/dns/cnameRecords/" ++ cname_segment aliasName tv ttl))) := by
  refine ⟨?_, ?_, ?_, ?_⟩
  · intro hnone
    have h : remove_a_record resp hostname none
        = .error ("Hostname " ++ hostname ++ " not found in A records") := by
      unfold remove_a_record
      rw [hnone]
    exact ⟨h, by rw [h]; rfl⟩
  · intro ipv hsome
    unfold remove_a_record
    rw [hsome]
  · intro hnone
    have h : remove_cname_record resp aliasName none ttl
        = .error ("CNAME alias " ++ aliasName ++ " not found") := by
      unfold remove_cname_record
      rw [hnone]
    exact ⟨h, by rw [h]; rfl⟩
  · intro tv hsome
    unfold remove_cname_record
    rw [hsome]

/-- Payload for the C6 witness: x.local is absent from the address map,
present.local maps to 10.0.0.9. -/
def respC6 : TransportGet :=
  .ok ⟨some ⟨some ⟨some ["10.0.0.9 present.local"], some []⟩⟩⟩

/-- C6 witness: the theorem applied at a map missing "x.local" (raises
not-found, no delete issued) and at the present "present.local". -/
theorem c6_remove_auto_resolution_witness :
    (remove_a_record respC6 "x.local" none
        = .error ("Hostname " ++ "x.local" ++ " not found in A records") ∧
      issuedCalls (remove_a_record respC6 "x.local" none) = []) ∧
    remove_a_record respC6 "present.local" none
      = .ok (.delete
          ("config/dns/hosts/" ++ a_record_segment "present.local" "10.0.0.9")) :=
  ⟨(c6_remove_auto_resolution respC6 "x.local" "a" 300).1 (by decide),
   (c6_remove_auto_resolution respC6 "present.local" "a" 300).2.1
     "10.0.0.9" (by decide)⟩

/-! ## Claim C7 -/

/-- C7 counterexample: the claim says a record is yielded only when the
first two comma tokens are non-empty.  The code checks only the token
COUNT: the line "," splits into two empty tokens and still yields a
record whose alias and target are both empty (with ttl "default"). -/
theorem c7_counterexample :
    decodeCnameEntry "," = [DnsRecord.cnamerec "" "" "default" ","] ∧
    decodeCnameEntry "," ≠ [] ∧
    processCnameEntry [] "," = [("", "")] := by
  refine ⟨rfl, ?_, rfl⟩
  decide

/-- C7 amended: alias-line decoding splits on comma and yields exactly
one record when the split has at least 2 tokens — without any
non-emptiness check on them — and zero records otherwise; a third token
becomes the record's ttl kept as unvalidated text, and an absent third
token yields the ttl string "default".  The keyed variant likewise maps
the first token to the second exactly when there are at least 2
tokens. -/
theorem c7_alias_line_decode (entry : String) :
    ((pySplitComma entry).length < 2 →
      decodeCnameEntry entry = [] ∧
      ∀ m, processCnameEntry m entry = m) ∧
    (∀ a b rest, pySplitComma entry = a :: b :: rest →
      decodeCnameEntry entry
        = [DnsRecord.cnamerec a b (rest.headD "default") entry] ∧
      ∀ m, processCnameEntry m entry = dictInsert m a b) := by
  constructor
  · intro hlt
    constructor
    · unfold decodeCnameEntry
      cases h : pySplitComma entry with
      | nil => rfl
      | cons a t =>
        cases t with
        | nil => rfl
        | cons b t2 =>
          rw [h] at hlt
          simp at hlt
          omega
    · intro m
      unfold processCnameEntry
      cases h : pySplitComma entry with
      | nil => rfl
      | cons a t =>
        cases t with
        | nil => rfl
        | cons b t2 =>
          rw [h] at hlt
          simp at hlt
          omega
  · intro a b rest hsplit
    constructor
    · unfold decodeCnameEntry
      rw [hsplit]
    · intro m
      unfold processCnameEntry
      rw [hsplit]

/-- C7 witness: "api.local,server2.local,3600" decodes to one record
with the third token retained as its ttl text. -/
theorem c7_alias_line_decode_witness :
    decodeCnameEntry "api.local,server2.local,3600"
      = [DnsRecord.cnamerec "api.local" "server2.local" "3600"
          "api.local,server2.local,3600"] ∧
    ∀ m, processCnameEntry m "api.local,server2.local,3600"
      = dictInsert m "api.local" "server2.local" :=
  (c7_alias_line_decode "api.local,server2.local,3600").2
    "api.local" "server2.local" ["3600"] (by decide)

/-! ## Claim C8 -/

/-- The ip values of ALL decoded address records of a payload, in the
list-of-records semantics (one per hostname token, so records whose
hostname is later overwritten in the keyed map are included). -/
def decodedAddressIps (resp : TransportGet) : List String :=
  match get_local_dns_records resp none with
  | .error _ => []
  | .ok rs => (rs.filter DnsRecord.isA).map DnsRecord.ipD

/-- Payload for the C8 counterexample: the hostname x appears in two
raw lines with different ips, so the keyed map keeps only the last. -/
def respC8 : TransportGet :=
  .ok ⟨some ⟨some ⟨some ["1.1.1.1 x", "2.2.2.2 x"], some []⟩⟩⟩

/-- C8 counterexample: the claim says get_statistics's unique_ips
counts distinct ips across ALL decoded address records, including
records whose hostname was overwritten in the keyed mapping.  On a
payload where x maps first to 1.1.1.1 and then to 2.2.2.2, the decoded
records carry 2 distinct ips but get_statistics reports 1, because it
counts over the keyed map in which the first record was overwritten. -/
theorem c8_counterexample :
    (get_statistics respC8).unique_ips = 1 ∧
    (decodedAddressIps respC8).dedup.length = 2 ∧
    (get_statistics respC8).unique_ips
      ≠ (decodedAddressIps respC8).dedup.length := by
  refine ⟨rfl, rfl, ?_⟩
  decide

/-- C8 amended: the list-based get_dns_statistics does report the
number of distinct ip values across all decoded address records
(overwritten hostnames included); the keyed get_statistics instead
reports the number of distinct ip values of the keyed address map,
where each hostname retains only the ip of its last raw line. -/
theorem c8_unique_ips (resp : TransportGet) :
    (∀ stats, get_dns_statistics resp = .ok stats →
      stats.unique_ips = (decodedAddressIps resp).dedup.length) ∧
    (get_statistics resp).unique_ips
      = ((get_a_records resp).map Prod.snd).dedup.length := by
  constructor
  · intro stats hstats
    cases resp with
    | error e => exact absurd hstats (by simp [get_dns_statistics, get_local_dns_records])
    | ok r =>
      have hrecs : get_local_dns_records (.ok r) none
          = .ok (((hostsOf r).map decodeHostEntry).flatten
              ++ ((cnamesOf r).map decodeCnameEntry).flatten) := rfl
      unfold get_dns_statistics at hstats
      rw [hrecs] at hstats
      have hs := (Except.ok.injEq _ _).mp hstats
      subst hs
      show ((((((hostsOf r).map decodeHostEntry).flatten
            ++ ((cnamesOf r).map decodeCnameEntry).flatten).filter
              DnsRecord.isA).foldl (fun s rec => setAdd s rec.ipD) []).length)
          = _
      rw [← List.foldl_map (f := DnsRecord.ipD) (g := setAdd)]
      rw [length_foldl_setAdd]
      rfl
  · show ((((get_a_records resp).map Prod.snd).foldl setAdd []).length) = _
    rw [length_foldl_setAdd]

/-- C8 witness: the amended theorem applied at the respC8 payload. -/
theorem c8_unique_ips_witness :
    ConfigDnsStats.unique_ips ⟨2, 2, 0, 1, 2⟩
      = (decodedAddressIps respC8).dedup.length :=
  (c8_unique_ips respC8).1 ⟨2, 2, 0, 1, 2⟩ (by rfl)

/-! ## Claim C9 -/

/-- C9: whatever the record_type argument, the dict returned by
get_all_records contains both the "A" and the "CNAME" key; when the
filter deselects a kind its key still maps to the empty dict; and the
kind comparison is case-insensitive, because record_type is uppercased
before matching. -/
theorem c9_result_shape (resp : TransportGet) (record_type : Option String) :
    ((unwrapRecords (get_all_records resp record_type)).lookup "A").isSome
      = true ∧
    ((unwrapRecords (get_all_records resp record_type)).lookup "CNAME").isSome
      = true ∧
    (∀ s, record_type = some s → pyUpper s ≠ "A" →
      (unwrapRecords (get_all_records resp record_type)).lookup "A"
        = some []) ∧
    (∀ s, record_type = some s → pyUpper s ≠ "CNAME" →
      (unwrapRecords (get_all_records resp record_type)).lookup "CNAME"
        = some []) ∧
    (∀ s t : String, pyUpper s = pyUpper t →
      get_all_records resp (some s) = get_all_records resp (some t)) := by
  refine ⟨?_, ?_, ?_, ?_, ?_⟩
  · cases resp <;> rfl
  · cases resp <;> rfl
  · intro s hrt hne
    subst hrt
    have hm : matchesKind (some s) "A" = false := by
      simp [matchesKind]
      exact hne
    cases resp with
    | error e => rfl
    | ok r => simp [get_all_records, unwrapRecords, hm, List.lookup]
  · intro s hrt hne
    subst hrt
    have hm : matchesKind (some s) "CNAME" = false := by
      simp [matchesKind]
      exact hne
    cases resp with
    | error e => rfl
    | ok r => simp [get_all_records, unwrapRecords, hm, List.lookup]
  · intro s t hst
    cases resp with
    | error e => rfl
    | ok r => simp only [get_all_records, matchesKind, hst]

/-- C9 witness: the theorem applied at a concrete payload with the
lowercase filter "cname": the "A" key is present and maps to the empty
dict, and filtering with "cname" equals filtering with "CNAME". -/
theorem c9_result_shape_witness :
    (unwrapRecords (get_all_records respC6 (some "cname"))).lookup "A"
      = some [] ∧
    get_all_records respC6 (some "cname")
      = get_all_records respC6 (some "CNAME") :=
  ⟨(c9_result_shape respC6 (some "cname")).2.2.1 "cname" rfl (by decide),
   (c9_result_shape respC6 (some "cname")).2.2.2.2 "cname" "CNAME" (by decide)⟩

/-! ## Claim C10 -/

/-- C10: remove_cname_record always embeds its ttl ARGUMENT in the
encoded deletion segment.  When the target is auto-resolved, the keyed
CNAME map consulted holds only alias-to-target pairs — the stored TTL
of the raw line was dropped by the decoder — so the deletion path is
fully determined by the alias, the looked-up target and the ttl
argument (first conjunct), and is therefore identical across payloads
whose stored TTLs differ (second conjunct). -/
theorem c10_remove_cname_argument_ttl (resp resp2 : TransportGet)
    (aliasName target : String) (ttl : Int) :
    ((get_cname_records resp).lookup aliasName = some target →
      remove_cname_record resp aliasName none ttl
        = .ok (.delete ("config/dns/cnameRecords/"
            ++ urlQuote (aliasName ++ "," ++ target ++ "," ++ toString ttl)))) ∧
    ((get_cname_records resp).lookup aliasName = some target →
     (get_cname_records resp2).lookup aliasName = some target →
      remove_cname_record resp aliasName none ttl
        = remove_cname_record resp2 aliasName none ttl) := by
  constructor
  · intro hlook
    unfold remove_cname_record
    rw [hlook]
    rfl
  · intro h1 h2
    unfold remove_cname_record
    rw [h1, h2]

/-- Payload whose stored CNAME line carries TTL 3600. -/
def respC10a : TransportGet :=
  .ok ⟨some ⟨some ⟨some [], some ["bar.xyz,foo.dev,3600"]⟩⟩⟩

/-- Payload whose stored CNAME line carries TTL 7200. -/
def respC10b : TransportGet :=
  .ok ⟨some ⟨some ⟨some [], some ["bar.xyz,foo.dev,7200"]⟩⟩⟩

/-- C10 witness: with stored TTL 3600 (and 7200) and ttl argument 300,
the deletion segment embeds 300, and the two payloads with different
stored TTLs yield the identical delete call. -/
theorem c10_remove_cname_argument_ttl_witness :
    remove_cname_record respC10a "bar.xyz" none 300
      = .ok (.delete ("config/dns/cnameRecords/"
          ++ urlQuote ("bar.xyz" ++ "," ++ "foo.dev" ++ ","
            ++ toString (300 : Int)))) ∧
    remove_cname_record respC10a "bar.xyz" none 300
      = remove_cname_record respC10b "bar.xyz" none 300 :=
  ⟨(c10_remove_cname_argument_ttl respC10a respC10b "bar.xyz" "foo.dev" 300).1
      (by decide),
   (c10_remove_cname_argument_ttl respC10a respC10b "bar.xyz" "foo.dev" 300).2
      (by decide) (by decide)⟩
